import Mathlib

/-!
Verification development for the telemetry-platform scheduler.

The C++ sources are shallowly embedded:
- `nlohmann::json` values are modeled by the inductive `Json` (numerics
  restricted to integers, which covers every value the task codec emits);
- `telemetry_processing::TaskQueue` (src/processing/src/task_queue.cpp) is
  modeled as a sequential state machine: each public method runs under the
  queue's single mutex in the source, so one operation is one atomic step,
  and a `wait_for` on a condition variable is modeled by evaluating its
  predicate on the unchanged state (no other thread can run while we wait
  in a sequential trace);
- `telemetry_processor::Task` (src/processing/src/core/Task.cpp) with its
  JSON envelope codec;
- `telemetry::ProtoAdapter` (src/common/src/proto_adapter.cpp) over a
  protobuf wire codec modeled from the spec;
- the two `RedisClient` wrappers (src/common/src/redis_client.cpp and
  src/processing/src/core/RedisClient.cpp).

C++ machine integers are modeled as `Int` with an explicit 32-bit wrap
(`int32wrap`) at the one place the source narrows a 64-bit value to `int`
(`nlohmann::json::value` with an `int` default). IEEE-754 doubles are
modeled as their 64-bit bit patterns: the code only stores and copies
them, never computes with them.
-/

namespace TelemetryPlatform

/-- Model of an `nlohmann::json` value. Number values are restricted to
integers; every number the task envelope codec writes is an integer. -/
inductive Json where
  | jnull : Json
  | jbool (b : Bool) : Json
  | jnum (n : Int) : Json
  | jstr (s : String) : Json
  | jarr (xs : List Json) : Json
  | jobj (kvs : List (String × Json)) : Json

/-- First binding of key `k` in an object's field list (nlohmann object
lookup; keys written by the code at hand are unique). -/
def jfind (kvs : List (String × Json)) (k : String) : Option Json :=
  match kvs with
  | [] => none
  | (k', v) :: rest => if k' = k then some v else jfind rest k

namespace TelemetryProcessing

/-- `telemetry_processing::TaskPriority` (task_queue.h): HIGH = 0,
MEDIUM = 1, LOW = 2; lower value means higher priority. -/
inductive TaskPriority where
  | high : TaskPriority
  | medium : TaskPriority
  | low : TaskPriority
deriving DecidableEq

/-- The `static_cast<int>` of a `TaskPriority` (values are 0, 1, 2, so a
`Nat` carries them). -/
def TaskPriority.toNat : TaskPriority → Nat
  | .high => 0
  | .medium => 1
  | .low => 2

/-- `telemetry_processing::Task` (task_queue.h): id, priority, creation
timestamp and a JSON payload. `created_at` is the `system_clock`
timestamp in microseconds, set by the Task constructor at construction
time; the queue never writes it. -/
structure Task where
  id : String
  priority : TaskPriority
  created_at : Nat
  payload : Json

/-- `TaskQueue::TaskComparator::operator()` (task_queue.h, lines 431-440):
`true` when `a` is ordered after `b` (worse heap priority). -/
def taskComparator (a b : Task) : Bool :=
  if a.priority.toNat ≠ b.priority.toNat then
    decide (b.priority.toNat < a.priority.toNat)
  else
    decide (b.created_at < a.created_at)

/-- Extraction of `std::priority_queue::top` from a pending-task list:
select the element no other element strictly precedes under
`taskComparator`, keeping the earliest such element (ties between
elements that compare equal are broken arbitrarily but deterministically
in the source; this model fixes insertion order). Returns the selected
task and the remaining tasks. -/
def extractMin : Task → List Task → Task × List Task
  | best, [] => (best, [])
  | best, x :: xs =>
    if taskComparator best x then
      let r := extractMin x xs
      (r.1, best :: r.2)
    else
      let r := extractMin best xs
      (r.1, x :: r.2)

/-- State of a `telemetry_processing::TaskQueue`: the pending tasks (in
insertion order; the heap is abstracted by `extractMin`), the capacity
bound and the shutdown flag. -/
structure TaskQueue where
  queue : List Task
  max_capacity : Nat
  shutdown : Bool

/-- A freshly constructed `TaskQueue(max_capacity)`. -/
def TaskQueue.init (max_capacity : Nat) : TaskQueue :=
  { queue := [], max_capacity := max_capacity, shutdown := false }

/-- `TaskQueue::size` (task_queue.cpp, line 96). -/
def TaskQueue.size (q : TaskQueue) : Nat := q.queue.length

/-- `TaskQueue::capacity` (task_queue.cpp, line 111). -/
def TaskQueue.capacity (q : TaskQueue) : Nat := q.max_capacity

/-- `TaskQueue::full` (task_queue.cpp, line 106): capacity positive and
size at capacity. -/
def TaskQueue.full (q : TaskQueue) : Bool :=
  decide (0 < q.max_capacity) && decide (q.max_capacity ≤ q.queue.length)

/-- `TaskQueue::enqueue` (task_queue.cpp, lines 20-54). Sequential model:
the `not_full_.wait_for` predicate (`shutdown_ || queue_.size() <
max_capacity_`) is evaluated on the unchanged state, since no other
thread runs during the wait in a sequential trace. Returns the bool
result and the new state; the task is pushed unchanged (no timestamp is
assigned at enqueue). -/
def TaskQueue.enqueue (q : TaskQueue) (task : Task) (timeout : Nat) :
    Bool × TaskQueue :=
  if q.shutdown then
    (false, q)
  else if 0 < q.max_capacity then
    if timeout = 0 then
      if q.max_capacity ≤ q.queue.length then (false, q)
      else (true, { q with queue := q.queue ++ [task] })
    else
      -- wait_for: predicate `shutdown_ || size < max_capacity_` on the
      -- unchanged state; `!success || shutdown_` yields false.
      if q.max_capacity ≤ q.queue.length then (false, q)
      else (true, { q with queue := q.queue ++ [task] })
  else
    (true, { q with queue := q.queue ++ [task] })

/-- `TaskQueue::dequeue` (task_queue.cpp, lines 56-84). Sequential model
of the `not_empty_.wait_for`: with no concurrent producer, an empty
queue stays empty, so both the `timeout == 0` and `timeout > 0` branches
return `nullopt` exactly when the queue is empty; otherwise the top task
under `TaskComparator` is removed. -/
def TaskQueue.dequeue (q : TaskQueue) (timeout : Nat) :
    Option Task × TaskQueue :=
  match q.queue with
  | [] => (none, q)
  | t :: ts =>
    match timeout, extractMin t ts with
    | _, (top, rest) => (some top, { q with queue := rest })

/-- `TaskQueue::clear` (task_queue.cpp, lines 115-125). -/
def TaskQueue.clearAll (q : TaskQueue) : TaskQueue :=
  { q with queue := [] }

/-- One client call on the queue: `enqueue(task, timeout)`,
`dequeue(timeout)` or `clear()`. -/
inductive QueueOp where
  | enq (task : Task) (timeout : Nat) : QueueOp
  | deq (timeout : Nat) : QueueOp
  | clear : QueueOp

/-- One operation applied to a queue state; returns the new state and the
task the operation returned, when it was a successful dequeue. -/
def TaskQueue.step (q : TaskQueue) : QueueOp → TaskQueue × Option Task
  | .enq task timeout => ((q.enqueue task timeout).2, none)
  | .deq timeout =>
    let r := q.dequeue timeout
    (r.2, r.1)
  | .clear => (q.clearAll, none)

/-- Run a sequence of queue operations, collecting the successfully
dequeued tasks in order. -/
def TaskQueue.run (q : TaskQueue) : List QueueOp → TaskQueue × List Task
  | [] => (q, [])
  | op :: ops =>
    let s := q.step op
    let r := s.1.run ops
    (r.1, s.2.toList ++ r.2)

/-- The dequeue-order relation of the spec: `a` precedes `b` when `a`'s
priority is at most `b`'s (by enum value) and, at equal priority, `a`'s
tiebreak timestamp is at most `b`'s. -/
def orderedPair (a b : Task) : Prop :=
  a.priority.toNat ≤ b.priority.toNat ∧
    (a.priority.toNat = b.priority.toNat → a.created_at ≤ b.created_at)

/-- `orderedPair` is reflexive. -/
theorem orderedPair_refl (a : Task) : orderedPair a a :=
  ⟨le_refl _, fun _ => le_refl _⟩

/-- `orderedPair` is transitive. -/
theorem orderedPair_trans {a b c : Task} (h1 : orderedPair a b)
    (h2 : orderedPair b c) : orderedPair a c := by
  obtain ⟨p1, t1⟩ := h1
  obtain ⟨p2, t2⟩ := h2
  refine ⟨le_trans p1 p2, fun he => ?_⟩
  have hab : a.priority.toNat = b.priority.toNat := by omega
  have hbc : b.priority.toNat = c.priority.toNat := by omega
  exact le_trans (t1 hab) (t2 hbc)

/-- The comparator returns `false` exactly on `orderedPair`. -/
theorem taskComparator_false_iff (a b : Task) :
    taskComparator a b = false ↔ orderedPair a b := by
  unfold taskComparator orderedPair
  split_ifs with h <;> simp <;> omega

/-- When the comparator orders `b` after `x`, `x` precedes `b`. -/
theorem taskComparator_true_ordered {b x : Task}
    (h : taskComparator b x = true) : orderedPair x b := by
  unfold taskComparator at h
  split_ifs at h with hp <;> simp at h <;>
    exact ⟨by omega, fun _ => by omega⟩

/-- The extracted top task precedes every task of the pending list. -/
theorem extractMin_fst_le (b : Task) (l : List Task) :
    ∀ y ∈ b :: l, orderedPair (extractMin b l).1 y := by
  induction l generalizing b with
  | nil =>
    intro y hy
    simp only [List.mem_singleton] at hy
    subst hy
    exact orderedPair_refl _
  | cons x xs ih =>
    intro y hy
    rcases List.mem_cons.mp hy with hyb | hy'
    · subst hyb
      unfold extractMin
      cases hc : taskComparator y x with
      | true =>
        simp only [hc, if_true]
        exact orderedPair_trans (ih x x (List.mem_cons_self _ _))
          (taskComparator_true_ordered hc)
      | false =>
        simp only [hc, Bool.false_eq_true, if_false]
        exact ih y y (List.mem_cons_self _ _)
    · unfold extractMin
      cases hc : taskComparator b x with
      | true =>
        simp only [hc, if_true]
        rcases List.mem_cons.mp hy' with hyx | hyxs
        · rw [hyx]
          exact ih x x (List.mem_cons_self _ _)
        · exact ih x y (List.mem_cons_of_mem _ hyxs)
      | false =>
        simp only [hc, Bool.false_eq_true, if_false]
        rcases List.mem_cons.mp hy' with hyx | hyxs
        · rw [hyx]
          exact orderedPair_trans (ih b b (List.mem_cons_self _ _))
            ((taskComparator_false_iff b x).mp hc)
        · exact ih b y (List.mem_cons_of_mem _ hyxs)

/-- The extracted top task is one of the pending tasks. -/
theorem extractMin_fst_mem (b : Task) (l : List Task) :
    (extractMin b l).1 ∈ b :: l := by
  induction l generalizing b with
  | nil => simp [extractMin]
  | cons x xs ih =>
    unfold extractMin
    cases hc : taskComparator b x with
    | true =>
      simp only [hc, if_true]
      rcases List.mem_cons.mp (ih x) with h | h
      · simp [h]
      · simp [List.mem_cons_of_mem, h]
    | false =>
      simp only [hc, Bool.false_eq_true, if_false]
      rcases List.mem_cons.mp (ih b) with h | h
      · simp [h]
      · simp [List.mem_cons_of_mem, h]

/-- Every task left after an extraction was pending before it. -/
theorem extractMin_rest_mem (b : Task) (l : List Task) :
    ∀ y ∈ (extractMin b l).2, y ∈ b :: l := by
  induction l generalizing b with
  | nil => simp [extractMin]
  | cons x xs ih =>
    intro y hy
    unfold extractMin at hy
    cases hc : taskComparator b x with
    | true =>
      simp only [hc, if_true] at hy
      rcases List.mem_cons.mp hy with h | h
      · simp [h]
      · rcases List.mem_cons.mp (ih x y h) with h' | h' <;> simp [h']
    | false =>
      simp only [hc, Bool.false_eq_true, if_false] at hy
      rcases List.mem_cons.mp hy with h | h
      · simp [h]
      · rcases List.mem_cons.mp (ih b y h) with h' | h' <;> simp [h']

/-- Extraction removes exactly one task. -/
theorem extractMin_rest_length (b : Task) (l : List Task) :
    (extractMin b l).2.length = l.length := by
  induction l generalizing b with
  | nil => simp [extractMin]
  | cons x xs ih =>
    unfold extractMin
    cases hc : taskComparator b x with
    | true => simp [hc, ih x]
    | false => simp [hc, ih b]

/-- A step never changes the configured capacity. -/
theorem step_capacity (q : TaskQueue) (op : QueueOp) :
    (q.step op).1.max_capacity = q.max_capacity := by
  cases op with
  | enq t timeout =>
    simp only [TaskQueue.step, TaskQueue.enqueue]
    split_ifs <;> rfl
  | deq timeout =>
    simp only [TaskQueue.step, TaskQueue.dequeue]
    cases q.queue <;> rfl
  | clear => rfl

/-- A step of a positively bounded queue keeps the size within capacity. -/
theorem step_size_le (q : TaskQueue) (op : QueueOp)
    (hcap : 0 < q.max_capacity) (h : q.queue.length ≤ q.max_capacity) :
    (q.step op).1.queue.length ≤ q.max_capacity := by
  cases op with
  | enq t timeout =>
    simp only [TaskQueue.step, TaskQueue.enqueue]
    split_ifs <;> simp_all <;> omega
  | deq timeout =>
    simp only [TaskQueue.step, TaskQueue.dequeue]
    cases hq : q.queue with
    | nil => simp only [hq]; exact hq ▸ h
    | cons t ts =>
      simp only [extractMin_rest_length]
      have := hq ▸ h
      simp at this
      omega
  | clear => simp [TaskQueue.step, TaskQueue.clearAll]

/-- Size stays within a positive capacity along any run. -/
theorem run_size_le (ops : List QueueOp) (q : TaskQueue)
    (hcap : 0 < q.max_capacity) (h : q.queue.length ≤ q.max_capacity) :
    (q.run ops).1.queue.length ≤ (q.run ops).1.max_capacity := by
  induction ops generalizing q with
  | nil => simp only [TaskQueue.run]; omega
  | cons op ops ih =>
    simp only [TaskQueue.run]
    exact ih (q.step op).1 (step_capacity q op ▸ hcap)
      (step_capacity q op ▸ step_size_le q op hcap h)

/-- Every task popped by a dequeue-only run was pending at its start. -/
theorem deq_popped_mem (n tmo : Nat) (q : TaskQueue) :
    ∀ y ∈ (q.run (List.replicate n (QueueOp.deq tmo))).2, y ∈ q.queue := by
  induction n generalizing q with
  | zero => simp [TaskQueue.run]
  | succ n ih =>
    intro y hy
    rw [List.replicate_succ] at hy
    simp only [TaskQueue.run, TaskQueue.step] at hy
    cases hq : q.queue with
    | nil =>
      simp only [TaskQueue.dequeue, hq] at hy
      simp only [Option.toList_none, List.nil_append] at hy
      exact absurd (ih _ y hy) (by simp [hq])
    | cons t ts =>
      simp only [TaskQueue.dequeue, hq] at hy
      simp only [Option.toList_some, List.cons_append, List.nil_append] at hy
      rcases List.mem_cons.mp hy with h | h
      · subst h
        exact hq ▸ extractMin_fst_mem t ts
      · have := ih _ y h
        simp only at this
        exact hq ▸ extractMin_rest_mem t ts y this

/-- The pops of a dequeue-only run come out in `orderedPair` order. -/
theorem deq_popped_pairwise (n tmo : Nat) (q : TaskQueue) :
    (q.run (List.replicate n (QueueOp.deq tmo))).2.Pairwise orderedPair := by
  induction n generalizing q with
  | zero => simp [TaskQueue.run]
  | succ n ih =>
    rw [List.replicate_succ]
    simp only [TaskQueue.run, TaskQueue.step]
    cases hq : q.queue with
    | nil =>
      simp only [TaskQueue.dequeue, hq]
      simpa using ih _
    | cons t ts =>
      simp only [TaskQueue.dequeue, hq]
      simp only [Option.toList_some, List.cons_append, List.nil_append]
      refine List.Pairwise.cons ?_ (ih _)
      intro y hy
      have hmem : y ∈ (extractMin t ts).2 := deq_popped_mem n tmo _ y hy
      exact extractMin_fst_le t ts y (extractMin_rest_mem t ts y hmem)

/-- Popped tasks of a run over appended operation lists. -/
theorem run_append (q : TaskQueue) (l1 l2 : List QueueOp) :
    q.run (l1 ++ l2) =
      (((q.run l1).1.run l2).1, (q.run l1).2 ++ ((q.run l1).1.run l2).2) := by
  induction l1 generalizing q with
  | nil => simp [TaskQueue.run]
  | cons op ops ih =>
    simp only [List.cons_append, TaskQueue.run, List.append_eq]
    rw [ih]
    simp [List.append_assoc]

/-- An enqueue-only run pops nothing. -/
theorem enq_run_popped_nil (q : TaskQueue) (ts : List (Task × Nat)) :
    (q.run (ts.map (fun p => QueueOp.enq p.1 p.2))).2 = [] := by
  induction ts generalizing q with
  | nil => simp [TaskQueue.run]
  | cons t ts ih => simp [TaskQueue.run, TaskQueue.step, ih]

/-- Modelled from the spec (the code has no such stamping): "enqueue(task,
timeout) → bool: inserts with current monotonic time as `enqueue_time`"
and "`enqueue_time` is set by the queue at the moment of enqueue and used
solely as a tiebreaker for FIFO-within-priority". Entries are
(task, enqueue_time) pairs; the monotonic clock is a counter advanced at
every enqueue. -/
structure SpecStampedQueue where
  entries : List (Task × Nat)
  clock : Nat

/-- Modelled from the spec: enqueue stamps the entry with the current
monotonic time. -/
def specStampedEnqueue (q : SpecStampedQueue) (t : Task) : SpecStampedQueue :=
  { entries := q.entries ++ [(t, q.clock)], clock := q.clock + 1 }

/-- Modelled from the spec: primary key priority ascending, tiebreaker
`enqueue_time` ascending. `true` when `a` is ordered after `b`. -/
def specEntryComparator (a b : Task × Nat) : Bool :=
  if a.1.priority.toNat ≠ b.1.priority.toNat then
    decide (b.1.priority.toNat < a.1.priority.toNat)
  else
    decide (b.2 < a.2)

/-- Top selection for the spec-stamped queue (earliest entry among ties). -/
def specSelectTop : (Task × Nat) → List (Task × Nat) →
    (Task × Nat) × List (Task × Nat)
  | best, [] => (best, [])
  | best, x :: xs =>
    if specEntryComparator best x then
      let r := specSelectTop x xs
      (r.1, best :: r.2)
    else
      let r := specSelectTop best xs
      (r.1, x :: r.2)

/-- Modelled from the spec: dequeue returns the strictly-highest-ordered
task under (priority, enqueue_time). -/
def specStampedDequeue (q : SpecStampedQueue) :
    Option Task × SpecStampedQueue :=
  match q.entries with
  | [] => (none, q)
  | e :: es =>
    let r := specSelectTop e es
    (some r.1.1, { q with entries := r.2 })

/-- A LOW-priority task created at time 0 (concrete test input). -/
def cxLow : Task :=
  { id := "l1", priority := .low, created_at := 0, payload := .jnull }

/-- A HIGH-priority task created at time 1 (concrete test input). -/
def cxHigh : Task :=
  { id := "h1", priority := .high, created_at := 1, payload := .jnull }

/-- A HIGH-priority task constructed at wall-clock time 10. -/
def cxA : Task :=
  { id := "a", priority := .high, created_at := 10, payload := .jnull }

/-- A HIGH-priority task constructed at wall-clock time 5 (earlier clock
than `cxA`, enqueued after it in the C5 scenario). -/
def cxB : Task :=
  { id := "b", priority := .high, created_at := 5, payload := .jnull }

end TelemetryProcessing

open TelemetryProcessing in
/-- C1 counterexample: the claim quantifies over any interleaved sequence
of enqueues and dequeues, but when an enqueue happens between two
dequeues the popped pair can violate the priority order: enqueue a LOW
task, dequeue it, then enqueue a HIGH task and dequeue that — the first
popped task has priority 2, the second 0, so the popped list is not
pairwise ordered. -/
theorem c1_dequeue_order_counterexample :
    ¬ (((TaskQueue.init 10).run
        [QueueOp.enq cxLow 0, QueueOp.deq 0, QueueOp.enq cxHigh 0,
          QueueOp.deq 0]).2.Pairwise orderedPair) := by
  intro h
  have hrun : ((TaskQueue.init 10).run
      [QueueOp.enq cxLow 0, QueueOp.deq 0, QueueOp.enq cxHigh 0,
        QueueOp.deq 0]).2 = [cxLow, cxHigh] := by rfl
  rw [hrun] at h
  have := (List.pairwise_cons.mp h).1 cxHigh (by simp)
  exact absurd this.1 (by simp [cxLow, cxHigh, TaskPriority.toNat])

open TelemetryProcessing in
/-- C1 (amended): for runs in which every enqueue precedes every dequeue,
each pair of successfully dequeued tasks (A before B) satisfies
A.priority ≤ B.priority (by enum value, HIGH = 0 first) and, at equal
priority, A's tiebreak timestamp is at most B's. -/
theorem c1_dequeue_order_amended (cap tmo : Nat) (ts : List (Task × Nat))
    (n : Nat) :
    (((TaskQueue.init cap).run
      (ts.map (fun p => QueueOp.enq p.1 p.2) ++
        List.replicate n (QueueOp.deq tmo))).2).Pairwise orderedPair := by
  rw [run_append]
  rw [enq_run_popped_nil]
  simpa using deq_popped_pairwise n tmo _

open TelemetryProcessing in
/-- C4: for a queue constructed with positive capacity, `size()` never
exceeds `capacity()` after any sequence of enqueue, dequeue and clear
operations. -/
theorem c4_size_le_capacity (cap : Nat) (hcap : 0 < cap)
    (ops : List QueueOp) :
    ((TaskQueue.init cap).run ops).1.size ≤
      ((TaskQueue.init cap).run ops).1.capacity := by
  exact run_size_le ops (TaskQueue.init cap) hcap (by simp [TaskQueue.init])

open TelemetryProcessing in
/-- C4 witness: capacity 2, three enqueues (the third fails on the full
queue), a dequeue and a further enqueue. -/
theorem c4_size_le_capacity_witness :
    ((TaskQueue.init 2).run
      [QueueOp.enq cxLow 0, QueueOp.enq cxHigh 0, QueueOp.enq cxA 5,
        QueueOp.deq 0, QueueOp.enq cxB 0]).1.size ≤
      ((TaskQueue.init 2).run
        [QueueOp.enq cxLow 0, QueueOp.enq cxHigh 0, QueueOp.enq cxA 5,
          QueueOp.deq 0, QueueOp.enq cxB 0]).1.capacity :=
  c4_size_le_capacity 2 (by decide)
    [QueueOp.enq cxLow 0, QueueOp.enq cxHigh 0, QueueOp.enq cxA 5,
      QueueOp.deq 0, QueueOp.enq cxB 0]

open TelemetryProcessing in
/-- C5 counterexample: the queue assigns no enqueue-time stamp. Tasks
`cxA` (created_at 10) and `cxB` (created_at 5) have equal priority; `cxA`
is enqueued first, yet the first dequeue returns `cxB`, because the
tiebreaker is the `created_at` the tasks carried from construction. The
spec-modelled stamped queue returns `cxA` on the same call sequence, so
the claimed enqueue-time stamping disagrees with the code. -/
theorem c5_enqueue_stamp_counterexample :
    (((TaskQueue.init 10).run
      [QueueOp.enq cxA 0, QueueOp.enq cxB 0, QueueOp.deq 0]).2.map Task.id
        = ["b"]) ∧
    ((specStampedDequeue
      (specStampedEnqueue (specStampedEnqueue ⟨[], 0⟩ cxA) cxB)).1.map
        Task.id = some "a") ∧
    (["b"] ≠ ["a"]) := by
  refine ⟨rfl, rfl, by decide⟩

open TelemetryProcessing in
/-- C5 (amended): enqueue inserts the task unchanged — no timestamp is
assigned by the queue — and the FIFO tiebreaker within a priority level
is the task's `created_at` field, set at task construction: of two
equal-priority tasks, the one with the smaller `created_at` is dequeued
first even when it was enqueued second. -/
theorem c5_tiebreak_is_created_at (q : TaskQueue) (x y : Task)
    (t1 t2 t3 t4 : Nat) (hp : x.priority = y.priority)
    (hlt : x.created_at < y.created_at) :
    ((q.enqueue x t1).1 = true →
      (q.enqueue x t1).2.queue = q.queue ++ [x]) ∧
    ((((TaskQueue.init 0).run
      [QueueOp.enq y t2, QueueOp.enq x t3]).1.dequeue t4).1 = some x) := by
  constructor
  · intro hok
    unfold TaskQueue.enqueue at hok ⊢
    split_ifs at hok ⊢ <;> simp_all
  · simp only [TaskQueue.run, TaskQueue.step, TaskQueue.enqueue,
      TaskQueue.init]
    norm_num
    simp only [TaskQueue.dequeue, List.nil_append]
    unfold extractMin
    have hc : taskComparator y x = true := by
      unfold taskComparator
      simp [hp, hlt]
    simp [hc, extractMin]

open TelemetryProcessing in
/-- C5 witness: enqueue of `cxB` on a concrete queue state appends it
unchanged, and with `cxA` (created_at 10) enqueued before `cxB`
(created_at 5), both HIGH, the first dequeue returns `cxB`. -/
theorem c5_tiebreak_is_created_at_witness :
    (((⟨[cxLow], 4, false⟩ : TaskQueue).enqueue cxB 0).1 = true →
      ((⟨[cxLow], 4, false⟩ : TaskQueue).enqueue cxB 0).2.queue
        = [cxLow] ++ [cxB]) ∧
    ((((TaskQueue.init 0).run
      [QueueOp.enq cxA 1, QueueOp.enq cxB 2]).1.dequeue 3).1 = some cxB) :=
  c5_tiebreak_is_created_at ⟨[cxLow], 4, false⟩ cxB cxA 0 1 2 3 rfl
    (by decide)

open TelemetryProcessing in
/-- C10: for a queue with `max_capacity = 0` (unbounded) that has not
been shut down, `full()` returns false and every enqueue succeeds,
regardless of the timeout argument and of how many tasks are queued. -/
theorem c10_unbounded_enqueue (q : TaskQueue) (t : Task) (timeout : Nat)
    (h0 : q.max_capacity = 0) (hs : q.shutdown = false) :
    q.full = false ∧ (q.enqueue t timeout).1 = true := by
  constructor
  · simp [TaskQueue.full, h0]
  · simp [TaskQueue.enqueue, h0, hs]

open TelemetryProcessing in
/-- C10 witness: an unbounded queue already holding three tasks accepts a
fourth with a nonzero timeout, and reports not-full. -/
theorem c10_unbounded_enqueue_witness :
    (⟨[cxLow, cxHigh, cxA], 0, false⟩ : TaskQueue).full = false ∧
    ((⟨[cxLow, cxHigh, cxA], 0, false⟩ : TaskQueue).enqueue cxB 7).1
      = true :=
  c10_unbounded_enqueue ⟨[cxLow, cxHigh, cxA], 0, false⟩ cxB 7 rfl rfl

namespace TelemetryProcessor

/-- Narrowing of a 64-bit JSON integer to a C++ `int`, as performed by
`nlohmann::json::value` with an `int` default (`static_cast` to a 32-bit
signed integer, two's-complement wrap). -/
def int32wrap (n : Int) : Int :=
  (n + 2147483648) % 4294967296 - 2147483648

/-- `n` is representable as a 32-bit signed `int`. -/
def inInt32 (n : Int) : Prop :=
  -2147483648 ≤ n ∧ n < 2147483648

/-- `int32wrap` is the identity on `int`-representable values. -/
theorem int32wrap_eq {n : Int} (h : inInt32 n) : int32wrap n = n := by
  unfold int32wrap
  unfold inInt32 at h
  rw [Int.emod_eq_of_lt (by omega) (by omega)]
  omega

/-- `std::chrono::system_clock::to_time_t`: microseconds-since-epoch to
whole seconds, truncating toward zero (`duration_cast`). -/
def to_time_t (tp : Int) : Int := tp.tdiv 1000000

/-- `std::chrono::system_clock::from_time_t`: whole seconds back to a
microsecond time point. -/
def from_time_t (s : Int) : Int := s * 1000000

/-- `telemetry_processor::Task` (Task.h): the envelope task. `priority`
and `status` carry the underlying integer of the scoped enums `Priority`
(HIGH = 0, NORMAL = 1, LOW = 2) and `TaskStatus` (PENDING = 0 …
CANCELLED = 4); a `static_cast` between the enum and `int` is the
identity on this representation. Timestamps are `system_clock`
time points in microseconds since the epoch. -/
structure Task where
  id : String
  type : String
  payload : String
  priority : Int
  status : Int
  retry_count : Int
  max_retries : Int
  created_at : Int
  updated_at : Int
  worker_id : String

/-- `nlohmann::json::value(key, default)` at a `std::string` default: on
a non-object throws `type_error.306`; a missing key yields the default;
a present non-string value throws `type_error.302`. -/
def jvalueStr (j : Json) (k : String) (d : String) : Except String String :=
  match j with
  | .jobj kvs =>
    match jfind kvs k with
    | none => .ok d
    | some (.jstr s) => .ok s
    | some _ => .error "type_error.302"
  | _ => .error "type_error.306"

/-- `nlohmann::json::value(key, default)` at an `int` default: on a
non-object throws `type_error.306`; a missing key yields the default; a
present non-number value throws `type_error.302`; a present number is
narrowed to `int`. -/
def jvalueInt (j : Json) (k : String) (d : Int) : Except String Int :=
  match j with
  | .jobj kvs =>
    match jfind kvs k with
    | none => .ok d
    | some (.jnum n) => .ok (int32wrap n)
    | some _ => .error "type_error.302"
  | _ => .error "type_error.306"

/-- `Task::to_json` (Task.cpp, lines 65-78): the ten-field envelope;
timestamps are written in whole seconds via `to_time_t`. -/
def Task.to_json (t : Task) : Json :=
  .jobj [("id", .jstr t.id),
         ("type", .jstr t.type),
         ("payload", .jstr t.payload),
         ("priority", .jnum t.priority),
         ("status", .jnum t.status),
         ("retry_count", .jnum t.retry_count),
         ("max_retries", .jnum t.max_retries),
         ("created_at", .jnum (to_time_t t.created_at)),
         ("updated_at", .jnum (to_time_t t.updated_at)),
         ("worker_id", .jstr t.worker_id)]

/-- `Task::from_json` (Task.cpp, lines 80-99): field reads in source
order with `json::value` defaults (priority default 1 = NORMAL, status
default 0 = PENDING, max_retries default 3); the `static_cast` to the
enums keeps the integer unchanged; timestamps are rebuilt with
`from_time_t`. The first nlohmann exception aborts the call. -/
def Task.from_json (j : Json) : Except String Task :=
  Except.bind (jvalueStr j "id" "") fun tid =>
  Except.bind (jvalueStr j "type" "") fun ttype =>
  Except.bind (jvalueStr j "payload" "") fun tpayload =>
  Except.bind (jvalueInt j "priority" 1) fun tpriority =>
  Except.bind (jvalueInt j "status" 0) fun tstatus =>
  Except.bind (jvalueInt j "retry_count" 0) fun tretry =>
  Except.bind (jvalueInt j "max_retries" 3) fun tmax =>
  Except.bind (jvalueInt j "created_at" 0) fun tcreated =>
  Except.bind (jvalueInt j "updated_at" 0) fun tupdated =>
  Except.bind (jvalueStr j "worker_id" "") fun tworker =>
  Except.ok { id := tid, type := ttype, payload := tpayload,
              priority := tpriority, status := tstatus,
              retry_count := tretry, max_retries := tmax,
              created_at := from_time_t tcreated,
              updated_at := from_time_t tupdated,
              worker_id := tworker }

/-- Truncation of a microsecond timestamp to its containing whole
second, the composite effect of `to_time_t` then `from_time_t`. -/
def truncUs (x : Int) : Int := x.tdiv 1000000 * 1000000

/-- The ten envelope field names. -/
def envelopeKeys : List String :=
  ["id", "type", "payload", "priority", "status", "retry_count",
   "max_retries", "created_at", "updated_at", "worker_id"]

/-- The value bound to `k`, if any, is a JSON string. -/
def strTyped (kvs : List (String × Json)) (k : String) : Bool :=
  match jfind kvs k with
  | none => true
  | some (.jstr _) => true
  | some _ => false

/-- The value bound to `k`, if any, is a JSON number. -/
def intTyped (kvs : List (String × Json)) (k : String) : Bool :=
  match jfind kvs k with
  | none => true
  | some (.jnum _) => true
  | some _ => false

/-- Every envelope field present in the object has the type
`Task::from_json` reads it at. -/
def wellTypedEnvelope (kvs : List (String × Json)) : Bool :=
  strTyped kvs "id" && strTyped kvs "type" && strTyped kvs "payload" &&
  intTyped kvs "priority" && intTyped kvs "status" &&
  intTyped kvs "retry_count" && intTyped kvs "max_retries" &&
  intTyped kvs "created_at" && intTyped kvs "updated_at" &&
  strTyped kvs "worker_id"

/-- A string-typed field read succeeds. -/
theorem jvalueStr_ok {kvs : List (String × Json)} {k : String}
    (h : strTyped kvs k = true) (d : String) :
    ∃ s, jvalueStr (.jobj kvs) k d = .ok s := by
  unfold strTyped at h
  cases hf : jfind kvs k with
  | none => exact ⟨d, by simp [jvalueStr, hf]⟩
  | some v =>
    rw [hf] at h
    cases v with
    | jstr s => exact ⟨s, by simp [jvalueStr, hf]⟩
    | jnull => simp at h
    | jbool b => simp at h
    | jnum n => simp at h
    | jarr xs => simp at h
    | jobj o => simp at h

/-- A number-typed field read succeeds. -/
theorem jvalueInt_ok {kvs : List (String × Json)} {k : String}
    (h : intTyped kvs k = true) (d : Int) :
    ∃ n, jvalueInt (.jobj kvs) k d = .ok n := by
  unfold intTyped at h
  cases hf : jfind kvs k with
  | none => exact ⟨d, by simp [jvalueInt, hf]⟩
  | some v =>
    rw [hf] at h
    cases v with
    | jnum n => exact ⟨int32wrap n, by simp [jvalueInt, hf]⟩
    | jnull => simp at h
    | jbool b => simp at h
    | jstr s => simp at h
    | jarr xs => simp at h
    | jobj o => simp at h

/-- Appending a binding for a different key does not change a lookup. -/
theorem jfind_append_ne {k k' : String} (kvs : List (String × Json))
    (v : Json) (hne : k ≠ k') :
    jfind (kvs ++ [(k, v)]) k' = jfind kvs k' := by
  induction kvs with
  | nil => simp [jfind, hne]
  | cons kv rest ih =>
    simp only [List.cons_append, jfind]
    split <;> simp [ih]

/-- Appending a binding for a different key leaves a string read alone. -/
theorem jvalueStr_append {k k' : String} (kvs : List (String × Json))
    (v : Json) (d : String) (hne : k ≠ k') :
    jvalueStr (.jobj (kvs ++ [(k, v)])) k' d = jvalueStr (.jobj kvs) k' d := by
  simp only [jvalueStr, jfind_append_ne kvs v hne]

/-- Appending a binding for a different key leaves an int read alone. -/
theorem jvalueInt_append {k k' : String} (kvs : List (String × Json))
    (v : Json) (d : Int) (hne : k ≠ k') :
    jvalueInt (.jobj (kvs ++ [(k, v)])) k' d = jvalueInt (.jobj kvs) k' d := by
  simp only [jvalueInt, jfind_append_ne kvs v hne]

/-- A concrete task whose `created_at` sits mid-second (1.5 s after the
epoch, in microseconds), well inside every integer range. -/
def taskMidSecond : Task :=
  { id := "t1", type := "compute", payload := "{}", priority := 0,
    status := 0, retry_count := 0, max_retries := 3,
    created_at := 1500000, updated_at := 1500000, worker_id := "" }

/-- A concrete task whose `created_at` is 2^31 seconds after the epoch
(year 2038), exercising the narrowing of the seconds value to `int` on
deserialization. -/
def taskY2038 : Task :=
  { id := "t2", type := "compute", payload := "{}", priority := 0,
    status := 0, retry_count := 0, max_retries := 3,
    created_at := 2147483648000000, updated_at := 2147483648000000,
    worker_id := "" }

end TelemetryProcessor

open TelemetryProcessor in
/-- C2 counterexample: `to_json` writes `created_at`/`updated_at` in
whole seconds (`to_time_t`), so a task created 1.5 s after the epoch
round-trips to 1.0 s — an error of 500000 µs, far beyond the claimed
±1 µs. Moreover a timestamp of 2^31 seconds is narrowed to `int` on
read and comes back negative. -/
theorem c2_roundtrip_counterexample :
    ((Task.from_json (Task.to_json taskMidSecond)).toOption.map
      Task.created_at = some 1000000) ∧
    ¬ ((1500000 - 1000000 : Int).natAbs ≤ 1) ∧
    ((Task.from_json (Task.to_json taskY2038)).toOption.map
      Task.created_at = some (-2147483648000000)) := by
  refine ⟨rfl, by decide, rfl⟩

open TelemetryProcessor in
/-- C2 (amended): serialize-then-deserialize restores `id`, `type`,
`payload`, `priority`, `status`, `retry_count`, `max_retries` and
`worker_id` exactly, while `created_at` and `updated_at` come back
truncated to their containing whole second — within 1 second below the
original, not within ±1 µs — for tasks whose integer fields fit in a
C++ `int` and whose timestamps lie in [0, 2^31 s). -/
theorem c2_roundtrip_amended (t : Task)
    (hpr : inInt32 t.priority) (hst : inInt32 t.status)
    (hrc : inInt32 t.retry_count) (hmr : inInt32 t.max_retries)
    (hca : 0 ≤ t.created_at) (hca2 : t.created_at < 2147483648000000)
    (hua : 0 ≤ t.updated_at) (hua2 : t.updated_at < 2147483648000000) :
    Task.from_json (Task.to_json t) =
      .ok { t with created_at := truncUs t.created_at,
                   updated_at := truncUs t.updated_at } ∧
    0 ≤ t.created_at - truncUs t.created_at ∧
    t.created_at - truncUs t.created_at < 1000000 ∧
    0 ≤ t.updated_at - truncUs t.updated_at ∧
    t.updated_at - truncUs t.updated_at < 1000000 := by
  have key : Task.from_json (Task.to_json t) =
      .ok { id := t.id, type := t.type, payload := t.payload,
            priority := int32wrap t.priority, status := int32wrap t.status,
            retry_count := int32wrap t.retry_count,
            max_retries := int32wrap t.max_retries,
            created_at := from_time_t (int32wrap (to_time_t t.created_at)),
            updated_at := from_time_t (int32wrap (to_time_t t.updated_at)),
            worker_id := t.worker_id } := rfl
  have hcd : to_time_t t.created_at = t.created_at / 1000000 := by
    unfold to_time_t
    exact Int.tdiv_eq_ediv hca (by norm_num)
  have hud : to_time_t t.updated_at = t.updated_at / 1000000 := by
    unfold to_time_t
    exact Int.tdiv_eq_ediv hua (by norm_num)
  have hcw : int32wrap (to_time_t t.created_at) = to_time_t t.created_at := by
    refine int32wrap_eq ?_
    rw [hcd]
    unfold inInt32
    omega
  have huw : int32wrap (to_time_t t.updated_at) = to_time_t t.updated_at := by
    refine int32wrap_eq ?_
    rw [hud]
    unfold inInt32
    omega
  refine ⟨?_, ?_, ?_, ?_, ?_⟩
  · rw [key, int32wrap_eq hpr, int32wrap_eq hst, int32wrap_eq hrc,
      int32wrap_eq hmr, hcw, huw]
    rfl
  · unfold truncUs
    rw [show t.created_at.tdiv 1000000 = t.created_at / 1000000 from
      Int.tdiv_eq_ediv hca (by norm_num)]
    omega
  · unfold truncUs
    rw [show t.created_at.tdiv 1000000 = t.created_at / 1000000 from
      Int.tdiv_eq_ediv hca (by norm_num)]
    omega
  · unfold truncUs
    rw [show t.updated_at.tdiv 1000000 = t.updated_at / 1000000 from
      Int.tdiv_eq_ediv hua (by norm_num)]
    omega
  · unfold truncUs
    rw [show t.updated_at.tdiv 1000000 = t.updated_at / 1000000 from
      Int.tdiv_eq_ediv hua (by norm_num)]
    omega

open TelemetryProcessor in
/-- C2 witness: a concrete in-range task; its round trip truncates the
1234567 µs timestamps to the whole second 1000000 µs. -/
theorem c2_roundtrip_amended_witness :
    Task.from_json (Task.to_json
      { id := "w", type := "io", payload := "p", priority := 2,
        status := 1, retry_count := 1, max_retries := 3,
        created_at := 1234567, updated_at := 1234567,
        worker_id := "wk" }) =
      .ok { id := "w", type := "io", payload := "p", priority := 2,
            status := 1, retry_count := 1, max_retries := 3,
            created_at := truncUs 1234567, updated_at := truncUs 1234567,
            worker_id := "wk" } ∧
    0 ≤ (1234567 : Int) - truncUs 1234567 ∧
    (1234567 : Int) - truncUs 1234567 < 1000000 ∧
    0 ≤ (1234567 : Int) - truncUs 1234567 ∧
    (1234567 : Int) - truncUs 1234567 < 1000000 :=
  c2_roundtrip_amended
    { id := "w", type := "io", payload := "p", priority := 2,
      status := 1, retry_count := 1, max_retries := 3,
      created_at := 1234567, updated_at := 1234567, worker_id := "wk" }
    ⟨by decide, by decide⟩ ⟨by decide, by decide⟩ ⟨by decide, by decide⟩
    ⟨by decide, by decide⟩ (by decide) (by decide) (by decide) (by decide)

open TelemetryProcessor in
/-- C6 counterexample: deserialization of well-formed JSON can fail —
an envelope whose `id` field holds a number makes `json::value` throw
`type_error.302` — and the missing-`priority` default is 1 (MEDIUM),
not the claimed 0. -/
theorem c6_deserialize_counterexample :
    (Task.from_json (.jobj [("id", Json.jnum 5)])).isOk = false ∧
    ((Task.from_json (.jobj [])).toOption.map Task.priority = some 1) ∧
    (1 : Int) ≠ 0 := by
  refine ⟨rfl, rfl, by decide⟩

open TelemetryProcessor in
/-- C6 (amended): for a well-formed JSON object whose present envelope
fields have the expected types, deserialization succeeds; bindings for
non-envelope keys are ignored; and an empty object yields the documented
defaults — empty strings, 0 for status, retry_count and the timestamps,
1 (MEDIUM) for priority, and 3 for max_retries. -/
theorem c6_deserialize_amended (kvs : List (String × Json)) (k : String)
    (v : Json) (h : wellTypedEnvelope kvs = true) (hk : k ∉ envelopeKeys) :
    (Task.from_json (.jobj kvs)).isOk = true ∧
    Task.from_json (.jobj (kvs ++ [(k, v)])) = Task.from_json (.jobj kvs) ∧
    Task.from_json (.jobj []) =
      .ok { id := "", type := "", payload := "", priority := 1,
            status := 0, retry_count := 0, max_retries := 3,
            created_at := 0, updated_at := 0, worker_id := "" } := by
  simp only [wellTypedEnvelope, Bool.and_eq_true] at h
  obtain ⟨⟨⟨⟨⟨⟨⟨⟨⟨hid, hty⟩, hpa⟩, hpr⟩, hst⟩, hrc⟩, hmr⟩, hca⟩, hua⟩,
    hwk⟩ := h
  simp only [envelopeKeys, List.mem_cons, List.not_mem_nil, or_false,
    not_or] at hk
  obtain ⟨k1, k2, k3, k4, k5, k6, k7, k8, k9, k10⟩ := hk
  refine ⟨?_, ?_, rfl⟩
  · obtain ⟨s1, e1⟩ := jvalueStr_ok hid ""
    obtain ⟨s2, e2⟩ := jvalueStr_ok hty ""
    obtain ⟨s3, e3⟩ := jvalueStr_ok hpa ""
    obtain ⟨n4, e4⟩ := jvalueInt_ok hpr 1
    obtain ⟨n5, e5⟩ := jvalueInt_ok hst 0
    obtain ⟨n6, e6⟩ := jvalueInt_ok hrc 0
    obtain ⟨n7, e7⟩ := jvalueInt_ok hmr 3
    obtain ⟨n8, e8⟩ := jvalueInt_ok hca 0
    obtain ⟨n9, e9⟩ := jvalueInt_ok hua 0
    obtain ⟨s10, e10⟩ := jvalueStr_ok hwk ""
    simp [Task.from_json, e1, e2, e3, e4, e5, e6, e7, e8, e9, e10,
      Except.bind, Except.isOk, Except.toBool]
  · simp only [Task.from_json,
      jvalueStr_append kvs v "" k1, jvalueStr_append kvs v "" k2,
      jvalueStr_append kvs v "" k3, jvalueInt_append kvs v 1 k4,
      jvalueInt_append kvs v 0 k5, jvalueInt_append kvs v 0 k6,
      jvalueInt_append kvs v 3 k7, jvalueInt_append kvs v 0 k8,
      jvalueInt_append kvs v 0 k9, jvalueStr_append kvs v "" k10]

open TelemetryProcessor in
/-- C6 witness: a well-typed envelope with an unknown field `custom`;
appending another unknown binding does not change the result, and the
empty envelope takes the documented defaults. -/
theorem c6_deserialize_amended_witness :
    (Task.from_json (.jobj [("id", Json.jstr "w"),
      ("retry_count", Json.jnum 2), ("custom", Json.jbool true)])).isOk
        = true ∧
    Task.from_json (.jobj ([("id", Json.jstr "w"),
      ("retry_count", Json.jnum 2), ("custom", Json.jbool true)] ++
        [("extra", Json.jnum 9)])) =
      Task.from_json (.jobj [("id", Json.jstr "w"),
        ("retry_count", Json.jnum 2), ("custom", Json.jbool true)]) ∧
    Task.from_json (.jobj []) =
      .ok { id := "", type := "", payload := "", priority := 1,
            status := 0, retry_count := 0, max_retries := 3,
            created_at := 0, updated_at := 0, worker_id := "" } :=
  c6_deserialize_amended
    [("id", Json.jstr "w"), ("retry_count", Json.jnum 2),
      ("custom", Json.jbool true)]
    "extra" (Json.jnum 9) (by decide) (by decide)

open TelemetryProcessor in
/-- C7 counterexample: an out-of-range `priority` integer (7) is not
rejected by defaulting to MEDIUM — `static_cast<Priority>` stores it
unchanged — and likewise `status` 9 is not defaulted to PENDING. -/
theorem c7_out_of_range_counterexample :
    ((Task.from_json (.jobj [("priority", Json.jnum 7),
      ("status", Json.jnum 9)])).toOption.map
        (fun t => (t.priority, t.status)) = some (7, 9)) ∧
    ((7 : Int), (9 : Int)) ≠ ((1 : Int), (0 : Int)) := by
  refine ⟨rfl, by decide⟩

open TelemetryProcessor in
/-- C7 (amended): a present integer `priority` or `status` field is
stored as-is (after the narrowing to `int`), whatever its value — the
defaults 1 (MEDIUM) and 0 (PENDING) apply only when the field is
missing, never as rejection of out-of-range values. -/
theorem c7_out_of_range_amended (n m : Int) (hn : inInt32 n)
    (hm : inInt32 m) :
    Task.from_json (.jobj [("priority", Json.jnum n),
      ("status", Json.jnum m)]) =
      .ok { id := "", type := "", payload := "", priority := n,
            status := m, retry_count := 0, max_retries := 3,
            created_at := 0, updated_at := 0, worker_id := "" } := by
  have key : Task.from_json (.jobj [("priority", Json.jnum n),
      ("status", Json.jnum m)]) =
      .ok { id := "", type := "", payload := "",
            priority := int32wrap n, status := int32wrap m,
            retry_count := 0, max_retries := 3, created_at := 0,
            updated_at := 0, worker_id := "" } := rfl
  rw [key, int32wrap_eq hn, int32wrap_eq hm]

open TelemetryProcessor in
/-- C7 witness: priority 7 and status 9 — both outside their enum
ranges — are preserved verbatim by deserialization. -/
theorem c7_out_of_range_amended_witness :
    Task.from_json (.jobj [("priority", Json.jnum 7),
      ("status", Json.jnum 9)]) =
      .ok { id := "", type := "", payload := "", priority := 7,
            status := 9, retry_count := 0, max_retries := 3,
            created_at := 0, updated_at := 0, worker_id := "" } :=
  c7_out_of_range_amended 7 9 ⟨by decide, by decide⟩ ⟨by decide, by decide⟩

namespace Telemetry

/-- Modelled from the spec: the protobuf base-128 varint encoding of an
unsigned integer, least-significant group first, high bit marking
continuation (`telemetry.pb.h` is generated code absent from src/). -/
def varintEncode (n : Nat) : List Nat :=
  if h : n < 128 then [n]
  else (n % 128 + 128) :: varintEncode (n / 128)
termination_by n
decreasing_by exact Nat.div_lt_self (by omega) (by norm_num)

/-- Modelled from the spec: varint decoding; returns the value and the
remaining bytes, or nothing on truncated input. -/
def varintDecode : List Nat → Option (Nat × List Nat)
  | [] => none
  | b :: rest =>
    if b < 128 then some (b, rest)
    else
      match varintDecode rest with
      | some (n, r) => some ((b - 128) + 128 * n, r)
      | none => none

/-- Modelled from the spec: `k`-byte little-endian fixed-width encoding
(8 bytes carry a double's IEEE-754 bit pattern on the wire). -/
def byteEnc : Nat → Nat → List Nat
  | 0, _ => []
  | k + 1, n => n % 256 :: byteEnc k (n / 256)

/-- Modelled from the spec: little-endian fixed-width decoding of `k`
bytes. -/
def byteDec : Nat → List Nat → Option (Nat × List Nat)
  | 0, bytes => some (0, bytes)
  | _ + 1, [] => none
  | k + 1, b :: rest =>
    match byteDec k rest with
    | some (v, r) => some (b + 256 * v, r)
    | none => none

/-- An `int64` on the wire: its value as an unsigned 64-bit integer
(two's complement). -/
def toUInt64 (i : Int) : Nat := (i % 18446744073709551616).toNat

/-- The signed reading of an unsigned 64-bit wire value. -/
def ofUInt64 (n : Nat) : Int :=
  if n < 9223372036854775808 then (n : Int)
  else (n : Int) - 18446744073709551616

/-- The protobuf message `telemetry.TelemetrySample` (schema of the
spec: `timestamp_us` int64 = 1, `value` double = 2, `unit` string = 3,
`sequence_id` uint32 = 4). The double is carried as its 64-bit pattern;
the string as its bytes. -/
structure TelemetrySample where
  timestamp_us : Int
  value_bits : Nat
  unit : List Nat
  sequence_id : Nat

/-- Modelled from the spec: proto3 serialization of the sample message —
fields in field-number order, each omitted when at its default value;
tags are (field_number << 3) | wire_type, so 0x08, 0x11, 0x1A, 0x20. -/
def encodeProto (p : TelemetrySample) : List Nat :=
  (if p.timestamp_us = 0 then [] else 8 :: varintEncode (toUInt64 p.timestamp_us)) ++
  (if p.value_bits = 0 then [] else 17 :: byteEnc 8 p.value_bits) ++
  (if p.unit = [] then [] else 26 :: (varintEncode p.unit.length ++ p.unit)) ++
  (if p.sequence_id = 0 then [] else 32 :: varintEncode p.sequence_id)

/-- An optional varint field: parsed when the next byte is `tag`,
otherwise left at 0 consuming nothing. -/
def parseOptVarint (tag : Nat) (bytes : List Nat) : Option (Nat × List Nat) :=
  match bytes with
  | b :: rest => if b = tag then varintDecode rest else some (0, bytes)
  | [] => some (0, [])

/-- An optional fixed64 field: parsed when the next byte is `tag`. -/
def parseOptFixed (tag : Nat) (bytes : List Nat) : Option (Nat × List Nat) :=
  match bytes with
  | b :: rest => if b = tag then byteDec 8 rest else some (0, bytes)
  | [] => some (0, [])

/-- An optional length-delimited field: parsed when the next byte is
`tag`; fails on a length exceeding the remaining input. -/
def parseOptBytes (tag : Nat) (bytes : List Nat) :
    Option (List Nat × List Nat) :=
  match bytes with
  | b :: rest =>
    if b = tag then
      match varintDecode rest with
      | some (len, r) =>
        if len ≤ r.length then some (r.take len, r.drop len) else none
      | none => none
    else some ([], bytes)
  | [] => some ([], [])

/-- Modelled from the spec: parsing of the sample message. Fields are
accepted in field-number order (the order proto3 serializers emit);
missing fields keep their proto3 defaults; trailing or malformed bytes
fail the parse (`ParseFromString` returns false). -/
def decodeProto (bytes : List Nat) : Option TelemetrySample :=
  match parseOptVarint 8 bytes with
  | none => none
  | some (u, r1) =>
    match parseOptFixed 17 r1 with
    | none => none
    | some (vb, r2) =>
      match parseOptBytes 26 r2 with
      | none => none
      | some (un, r3) =>
        match parseOptVarint 32 r3 with
        | none => none
        | some (sq, r4) =>
          match r4 with
          | [] => some { timestamp_us := ofUInt64 u, value_bits := vb,
                         unit := un, sequence_id := sq % 4294967296 }
          | _ :: _ => none

/-- `telemetry::TelemetrySampleCpp` (proto_adapter.h): timestamp is a
`system_clock` time point (nanoseconds since the epoch on the target
platform), `value` an IEEE-754 double carried as its 64-bit pattern,
`unit` a byte string, `sequence_id` a uint32. -/
structure TelemetrySampleCpp where
  timestamp : Int
  value : Nat
  unit : List Nat
  sequence_id : Nat

namespace ProtoAdapter

/-- `ProtoAdapter::toProto` (proto_adapter.cpp, lines 6-20):
`duration_cast` of the timestamp to microseconds (truncation toward
zero); the other fields are copied. -/
def toProto (sample : TelemetrySampleCpp) : TelemetrySample :=
  { timestamp_us := sample.timestamp.tdiv 1000,
    value_bits := sample.value,
    unit := sample.unit,
    sequence_id := sample.sequence_id }

/-- `ProtoAdapter::fromProto` (proto_adapter.cpp, lines 22-35): the
microsecond value becomes a time point (exact ×1000 to nanoseconds). -/
def fromProto (proto : TelemetrySample) : TelemetrySampleCpp :=
  { timestamp := proto.timestamp_us * 1000,
    value := proto.value_bits,
    unit := proto.unit,
    sequence_id := proto.sequence_id }

/-- `ProtoAdapter::serialize` (proto_adapter.cpp, lines 37-43). -/
def serialize (sample : TelemetrySampleCpp) : List Nat :=
  encodeProto (toProto sample)

/-- `ProtoAdapter::deserialize` (proto_adapter.cpp, lines 45-52):
nullopt when the parse fails. -/
def deserialize (bytes : List Nat) : Option TelemetrySampleCpp :=
  match decodeProto bytes with
  | none => none
  | some proto => some (fromProto proto)

end ProtoAdapter

/-- Varint decoding undoes varint encoding, leaving trailing bytes. -/
theorem varintDecode_encode (n : Nat) (rest : List Nat) :
    varintDecode (varintEncode n ++ rest) = some (n, rest) := by
  induction n using Nat.strong_induction_on with
  | _ n ih =>
    rw [varintEncode]
    split_ifs with h
    · rw [List.singleton_append]
      simp [varintDecode, h]
    · have hlt : n / 128 < n := Nat.div_lt_self (by omega) (by norm_num)
      have hb : ¬ (n % 128 + 128 < 128) := by omega
      rw [List.cons_append]
      simp only [varintDecode, hb, if_false, ih (n / 128) hlt]
      simp only [Option.some.injEq, Prod.mk.injEq]
      exact ⟨by omega, trivial⟩

/-- Fixed-width decoding undoes fixed-width encoding modulo `256^k`. -/
theorem byteDec_enc (k : Nat) (n : Nat) (rest : List Nat) :
    byteDec k (byteEnc k n ++ rest) = some (n % 256 ^ k, rest) := by
  induction k generalizing n with
  | zero => simp [byteEnc, byteDec, Nat.mod_one]
  | succ k ih =>
    show byteDec (k + 1) ((n % 256 :: byteEnc k (n / 256)) ++ rest) = _
    rw [List.cons_append]
    simp only [byteDec, ih (n / 256)]
    simp only [Option.some.injEq, Prod.mk.injEq]
    refine ⟨?_, trivial⟩
    rw [pow_succ', Nat.mod_mul]

/-- Eight-byte decoding is exact below `2^64`. -/
theorem byteDec_enc64 {n : Nat} (h : n < 18446744073709551616)
    (rest : List Nat) :
    byteDec 8 (byteEnc 8 n ++ rest) = some (n, rest) := by
  rw [byteDec_enc]
  have : n % 256 ^ 8 = n := Nat.mod_eq_of_lt (by norm_num; omega)
  rw [this]

/-- Varint decoding of an encoding with no trailing bytes. -/
theorem varintDecode_encode_nil (n : Nat) :
    varintDecode (varintEncode n) = some (n, []) := by
  have := varintDecode_encode n []
  simpa using this

/-- Eight-byte decoding of an encoding with no trailing bytes. -/
theorem byteDec_enc64_nil {n : Nat} (h : n < 18446744073709551616) :
    byteDec 8 (byteEnc 8 n) = some (n, []) := by
  have := byteDec_enc64 h []
  simpa using this

/-- The wire reading of zero is zero. -/
theorem ofUInt64_zero : ofUInt64 0 = 0 := rfl

/-- The unsigned wire reading restores any value of `int64` range. -/
theorem ofUInt64_toUInt64 {i : Int} (h1 : -9223372036854775808 ≤ i)
    (h2 : i < 9223372036854775808) : ofUInt64 (toUInt64 i) = i := by
  unfold ofUInt64 toUInt64
  split_ifs with h <;> omega

/-- Truncating division by 1000 stays in `int64` range and moves the
value by less than 1000. -/
theorem tdiv1000_facts (a : Int) (h1 : -9223372036854775808 ≤ a)
    (h2 : a < 9223372036854775808) :
    -9223372036854775808 ≤ a.tdiv 1000 ∧
    a.tdiv 1000 < 9223372036854775808 ∧
    (a - a.tdiv 1000 * 1000).natAbs < 1000 := by
  rcases le_or_lt 0 a with ha | ha
  · rw [Int.tdiv_eq_ediv ha (by norm_num)]
    refine ⟨by omega, by omega, by omega⟩
  · have hb : (0 : Int) ≤ -a := by omega
    have hneg : a.tdiv 1000 = -((-a).tdiv 1000) := by
      rw [← Int.neg_tdiv, Int.neg_neg]
    rw [hneg, Int.tdiv_eq_ediv hb (by norm_num)]
    refine ⟨by omega, by omega, by omega⟩

/-- Parsing the serialization restores the proto message (its `int64`
timestamp within range, the double pattern below `2^64`, the counter
below `2^32`). -/
theorem decodeProto_encodeProto (p : TelemetrySample)
    (ht1 : -9223372036854775808 ≤ p.timestamp_us)
    (ht2 : p.timestamp_us < 9223372036854775808)
    (hv : p.value_bits < 18446744073709551616)
    (hsq : p.sequence_id < 4294967296) :
    decodeProto (encodeProto p) = some p := by
  obtain ⟨ts, vb, un, sq⟩ := p
  simp only at ht1 ht2 hv hsq
  by_cases e1 : ts = 0 <;> by_cases e2 : vb = 0 <;>
    by_cases e3 : un = [] <;> by_cases e4 : sq = 0 <;>
    simp [encodeProto, e1, e2, e3, e4, List.append_assoc, decodeProto,
      parseOptVarint, parseOptFixed, parseOptBytes,
      varintDecode_encode, varintDecode_encode_nil,
      byteDec_enc64 (show vb < 18446744073709551616 from hv),
      byteDec_enc64_nil (show vb < 18446744073709551616 from hv),
      ofUInt64_toUInt64 ht1 ht2, Nat.mod_eq_of_lt hsq, ofUInt64_zero,
      List.take_left, List.drop_left, List.take_length, List.drop_length,
      Nat.le_add_right]

end Telemetry

open Telemetry in
/-- C3: decoding the binary encoding of a telemetry sample succeeds and
restores `value`, `unit` and `sequence_id` exactly, with the timestamp
truncated to the microsecond — within one microsecond (1000 ns) of the
original. Hypotheses bound the fields by their C++ types (`int64`
nanosecond timestamp, 64-bit double pattern, `uint32` counter). -/
theorem c3_sample_codec_roundtrip (s : TelemetrySampleCpp)
    (h1 : -9223372036854775808 ≤ s.timestamp)
    (h2 : s.timestamp < 9223372036854775808)
    (hv : s.value < 18446744073709551616)
    (hsq : s.sequence_id < 4294967296) :
    ProtoAdapter.deserialize (ProtoAdapter.serialize s) =
      some { s with timestamp := s.timestamp.tdiv 1000 * 1000 } ∧
    (s.timestamp - s.timestamp.tdiv 1000 * 1000).natAbs < 1000 := by
  obtain ⟨hq1, hq2, hq3⟩ := tdiv1000_facts s.timestamp h1 h2
  constructor
  · unfold ProtoAdapter.deserialize ProtoAdapter.serialize
    rw [decodeProto_encodeProto (ProtoAdapter.toProto s) hq1 hq2 hv hsq]
    rfl
  · exact hq3

open Telemetry in
/-- C3 witness: the spec's scenario-5 sample — timestamp
1730000000000000 µs (given in nanoseconds), value 23.5 (pattern
0x4037800000000000), unit "celsius", sequence 12345. -/
theorem c3_sample_codec_roundtrip_witness :
    ProtoAdapter.deserialize (ProtoAdapter.serialize
      { timestamp := 1730000000000000000, value := 0x4037800000000000,
        unit := [99, 101, 108, 115, 105, 117, 115],
        sequence_id := 12345 }) =
      some { timestamp := (1730000000000000000 : Int).tdiv 1000 * 1000,
             value := 0x4037800000000000,
             unit := [99, 101, 108, 115, 105, 117, 115],
             sequence_id := 12345 } ∧
    ((1730000000000000000 : Int) -
      (1730000000000000000 : Int).tdiv 1000 * 1000).natAbs < 1000 :=
  c3_sample_codec_roundtrip
    { timestamp := 1730000000000000000, value := 0x4037800000000000,
      unit := [99, 101, 108, 115, 105, 117, 115], sequence_id := 12345 }
    (by decide) (by decide) (by decide) (by decide)

/-- First value bound to key `k` in an association list. -/
def alookup {α : Type} : List (String × α) → String → Option α
  | [], _ => none
  | (k', v) :: rest, k => if k' = k then some v else alookup rest k

/-- Replace the binding of `k` (or append one) in an association list. -/
def aupdate {α : Type} : List (String × α) → String → α → List (String × α)
  | [], k, v => [(k, v)]
  | (k', v') :: rest, k, v =>
    if k' = k then (k, v) :: rest else (k', v') :: aupdate rest k v

/-- Remove the binding of `k` from an association list (`std::map::erase`
on unique keys). -/
def aerase {α : Type} : List (String × α) → String → List (String × α)
  | [], _ => []
  | (k', v) :: rest, k =>
    if k' = k then aerase rest k else (k', v) :: aerase rest k

namespace TelemetryCommon

/-- A transport failure of the underlying driver (`sw::redis::Error`):
connection loss, timeout, or protocol error. -/
inductive RedisError where
  | err (msg : String) : RedisError

/-- The underlying `sw::redis::Redis` connection handle: each field is
the outcome of the corresponding command over the transport — a reply,
or a thrown `sw::redis::Error`. Scores (C++ doubles) are carried as
integers; the wrapper only passes them through. -/
structure SwRedis where
  pingR : Except RedisError String
  setR : String → String → Option Int → Except RedisError Bool
  getR : String → Except RedisError (Option String)
  delR : String → Except RedisError Int
  existsR : String → Except RedisError Int
  expireR : String → Int → Except RedisError Bool
  ttlR : String → Except RedisError Int
  lpushR : String → String → Except RedisError Int
  rpopR : String → Except RedisError (Option String)
  brpopR : String → Int → Except RedisError (Option (String × String))
  llenR : String → Except RedisError Int
  lrangeR : String → Int → Int → Except RedisError (List String)
  saddR : String → String → Except RedisError Int
  sismemberR : String → String → Except RedisError Bool
  sremR : String → String → Except RedisError Int
  zaddR : String → String → Int → Except RedisError Int
  zpopmaxR : String → Except RedisError (Option (String × Int))
  zcardR : String → Except RedisError Int
  incrR : String → Except RedisError Int
  decrR : String → Except RedisError Int
  infoR : Except RedisError String

/-- A connection on which every command fails with the transport error
`e` (an unreachable or timed-out broker). -/
def errRedis (e : RedisError) : SwRedis :=
  { pingR := .error e, setR := fun _ _ _ => .error e,
    getR := fun _ => .error e, delR := fun _ => .error e,
    existsR := fun _ => .error e, expireR := fun _ _ => .error e,
    ttlR := fun _ => .error e, lpushR := fun _ _ => .error e,
    rpopR := fun _ => .error e, brpopR := fun _ _ => .error e,
    llenR := fun _ => .error e, lrangeR := fun _ _ _ => .error e,
    saddR := fun _ _ => .error e, sismemberR := fun _ _ => .error e,
    sremR := fun _ _ => .error e, zaddR := fun _ _ _ => .error e,
    zpopmaxR := fun _ => .error e, zcardR := fun _ => .error e,
    incrR := fun _ => .error e, decrR := fun _ => .error e,
    infoR := .error e }

namespace RedisClient

/-- `RedisClient::ping` (redis_client.cpp, lines 50-59): false without a
handle; true exactly on a "PONG" reply; false on error. -/
def ping (redis : Option SwRedis) : Bool :=
  match redis with
  | none => false
  | some r =>
    match r.pingR with
    | .ok response => decide (response = "PONG")
    | .error _ => false

/-- `RedisClient::set` (redis_client.cpp, lines 67-80): a positive TTL
selects the TTL overload; false on error or without a handle. -/
def set (redis : Option SwRedis) (key value : String)
    (ttl_seconds : Int) : Bool :=
  match redis with
  | none => false
  | some r =>
    if 0 < ttl_seconds then
      match r.setR key value (some ttl_seconds) with
      | .ok b => b
      | .error _ => false
    else
      match r.setR key value none with
      | .ok b => b
      | .error _ => false

/-- `RedisClient::get` (redis_client.cpp, lines 82-94). -/
def get (redis : Option SwRedis) (key : String) : Option String :=
  match redis with
  | none => none
  | some r =>
    match r.getR key with
    | .ok v => v
    | .error _ => none

/-- `RedisClient::del` (redis_client.cpp, lines 96-104); the reply is
narrowed by `static_cast<int>`. -/
def del (redis : Option SwRedis) (key : String) : Int :=
  match redis with
  | none => 0
  | some r =>
    match r.delR key with
    | .ok n => TelemetryProcessor.int32wrap n
    | .error _ => 0

/-- `RedisClient::exists` (redis_client.cpp, lines 106-114). -/
def existsKey (redis : Option SwRedis) (key : String) : Bool :=
  match redis with
  | none => false
  | some r =>
    match r.existsR key with
    | .ok n => decide (0 < n)
    | .error _ => false

/-- `RedisClient::expire` (redis_client.cpp, lines 116-124). -/
def expire (redis : Option SwRedis) (key : String) (seconds : Int) : Bool :=
  match redis with
  | none => false
  | some r =>
    match r.expireR key seconds with
    | .ok b => b
    | .error _ => false

/-- `RedisClient::ttl` (redis_client.cpp, lines 126-136): -2 (the
key-absent sentinel) without a handle and on error; the reply is
narrowed by `static_cast<int>`. -/
def ttl (redis : Option SwRedis) (key : String) : Int :=
  match redis with
  | none => -2
  | some r =>
    match r.ttlR key with
    | .ok n => TelemetryProcessor.int32wrap n
    | .error _ => -2

/-- `RedisClient::lpush` (redis_client.cpp, lines 140-148). -/
def lpush (redis : Option SwRedis) (key value : String) : Int :=
  match redis with
  | none => 0
  | some r =>
    match r.lpushR key value with
    | .ok n => n
    | .error _ => 0

/-- `RedisClient::rpop` (redis_client.cpp, lines 150-162). -/
def rpop (redis : Option SwRedis) (key : String) : Option String :=
  match redis with
  | none => none
  | some r =>
    match r.rpopR key with
    | .ok v => v
    | .error _ => none

/-- `RedisClient::brpop` (redis_client.cpp, lines 164-186): both timeout
branches return the popped value (`val->second`, not the key). -/
def brpop (redis : Option SwRedis) (key : String)
    (timeout_seconds : Int) : Option String :=
  match redis with
  | none => none
  | some r =>
    if 0 < timeout_seconds then
      match r.brpopR key timeout_seconds with
      | .ok (some pair) => some pair.2
      | .ok none => none
      | .error _ => none
    else
      match r.brpopR key 0 with
      | .ok (some pair) => some pair.2
      | .ok none => none
      | .error _ => none

/-- `RedisClient::llen` (redis_client.cpp, lines 188-196). -/
def llen (redis : Option SwRedis) (key : String) : Int :=
  match redis with
  | none => 0
  | some r =>
    match r.llenR key with
    | .ok n => n
    | .error _ => 0

/-- `RedisClient::lrange` (redis_client.cpp, lines 198-208). -/
def lrange (redis : Option SwRedis) (key : String)
    (start stop : Int) : List String :=
  match redis with
  | none => []
  | some r =>
    match r.lrangeR key start stop with
    | .ok l => l
    | .error _ => []

/-- `RedisClient::sadd` (redis_client.cpp, lines 212-220). -/
def sadd (redis : Option SwRedis) (key member : String) : Int :=
  match redis with
  | none => 0
  | some r =>
    match r.saddR key member with
    | .ok n => n
    | .error _ => 0

/-- `RedisClient::sismember` (redis_client.cpp, lines 222-230). -/
def sismember (redis : Option SwRedis) (key member : String) : Bool :=
  match redis with
  | none => false
  | some r =>
    match r.sismemberR key member with
    | .ok b => b
    | .error _ => false

/-- `RedisClient::srem` (redis_client.cpp, lines 232-240). -/
def srem (redis : Option SwRedis) (key member : String) : Int :=
  match redis with
  | none => 0
  | some r =>
    match r.sremR key member with
    | .ok n => n
    | .error _ => 0

/-- `RedisClient::zadd` (redis_client.cpp, lines 244-252): signature
`zadd(key, member, score)`. -/
def zadd (redis : Option SwRedis) (key member : String)
    (score : Int) : Int :=
  match redis with
  | none => 0
  | some r =>
    match r.zaddR key member score with
    | .ok n => n
    | .error _ => 0

/-- `RedisClient::zpopmax` (redis_client.cpp, lines 254-267): returns
`val->first` — the member only; the reply's score is discarded. -/
def zpopmax (redis : Option SwRedis) (key : String) : Option String :=
  match redis with
  | none => none
  | some r =>
    match r.zpopmaxR key with
    | .ok (some pair) => some pair.1
    | .ok none => none
    | .error _ => none

/-- `RedisClient::zcard` (redis_client.cpp, lines 269-277). -/
def zcard (redis : Option SwRedis) (key : String) : Int :=
  match redis with
  | none => 0
  | some r =>
    match r.zcardR key with
    | .ok n => n
    | .error _ => 0

/-- `RedisClient::incr` (redis_client.cpp, lines 281-289). -/
def incr (redis : Option SwRedis) (key : String) : Int :=
  match redis with
  | none => 0
  | some r =>
    match r.incrR key with
    | .ok n => n
    | .error _ => 0

/-- `RedisClient::decr` (redis_client.cpp, lines 291-299). -/
def decr (redis : Option SwRedis) (key : String) : Int :=
  match redis with
  | none => 0
  | some r =>
    match r.decrR key with
    | .ok n => n
    | .error _ => 0

/-- `RedisClient::info` (redis_client.cpp, lines 303-311). -/
def info (redis : Option SwRedis) : String :=
  match redis with
  | none => ""
  | some r =>
    match r.infoR with
    | .ok s => s
    | .error _ => ""

end RedisClient

/-- Modelled from the spec (the broker server is external): the sorted
sets of a Redis-compatible server, keyed by name; each sorted set is a
list of (member, score) bindings with unique members. -/
structure RedisServerState where
  zsets : List (String × List (String × Int))

/-- The empty broker keyspace. -/
def emptyServer : RedisServerState := { zsets := [] }

/-- Modelled from the spec: ZADD upserts a member's score; returns the
number of newly added members (1 when new, 0 on update). -/
def zsetUpsert (z : List (String × Int)) (member : String) (score : Int) :
    List (String × Int) × Int :=
  match z with
  | [] => ([(member, score)], 1)
  | (m, s) :: rest =>
    if m = member then ((m, score) :: rest, 0)
    else
      let r := zsetUpsert rest member score
      ((m, s) :: r.1, r.2)

/-- The Redis sorted-set order: `true` when `b` ranks strictly above
`a` — higher score first, ties by lexicographically larger member. -/
def zAbove (a b : String × Int) : Bool :=
  decide (a.2 < b.2) || (decide (a.2 = b.2) && decide (a.1 < b.1))

/-- Selection of the highest-ranked entry and the remaining entries. -/
def zselectMax : (String × Int) → List (String × Int) →
    (String × Int) × List (String × Int)
  | best, [] => (best, [])
  | best, x :: xs =>
    if zAbove best x then
      let r := zselectMax x xs
      (r.1, best :: r.2)
    else
      let r := zselectMax best xs
      (r.1, x :: r.2)

/-- Modelled from the spec: the server side of ZADD. -/
def serverZadd (st : RedisServerState) (key member : String)
    (score : Int) : RedisServerState × Int :=
  let z := (alookup st.zsets key).getD []
  let r := zsetUpsert z member score
  ({ zsets := aupdate st.zsets key r.1 }, r.2)

/-- Modelled from the spec: the server side of ZPOPMAX — the pair
(member, score) of the highest-scored member, removed from the set. -/
def serverZpopmax (st : RedisServerState) (key : String) :
    Option (String × Int) × RedisServerState :=
  match (alookup st.zsets key).getD [] with
  | [] => (none, st)
  | e :: es =>
    let r := zselectMax e es
    (some r.1, { zsets := aupdate st.zsets key r.2 })

/-- `RedisClient::zadd` (redis_client.cpp, lines 244-252) against a live
server: delegates `zadd(key, member, score)` and returns the count. -/
def RedisClient.zaddLive (st : RedisServerState) (key member : String)
    (score : Int) : Int × RedisServerState :=
  let r := serverZadd st key member score
  (r.2, r.1)

/-- `RedisClient::zpopmax` (redis_client.cpp, lines 254-267) against a
live server: pops (member, score) from the server and returns
`val->first` — the member only. -/
def RedisClient.zpopmaxLive (st : RedisServerState) (key : String) :
    Option String × RedisServerState :=
  let r := serverZpopmax st key
  match r.1 with
  | some pair => (some pair.1, r.2)
  | none => (none, r.2)

end TelemetryCommon

namespace TelemetryProcessor

/-- `telemetry_processor::RedisClient::Impl` (core/RedisClient.cpp,
lines 14-67): the in-memory mock store — a key/value map and a map of
lists. -/
structure Impl where
  kv_store : List (String × String)
  lists : List (String × List String)

/-- `Impl::rpush` (core/RedisClient.cpp, lines 19-23). -/
def Impl.rpush (impl : Impl) (key value : String) : Bool × Impl :=
  let cur := (alookup impl.lists key).getD []
  (true, { impl with lists := aupdate impl.lists key (cur ++ [value]) })

/-- `Impl::blpop` (core/RedisClient.cpp, lines 25-35): pops the front of
the list, or nothing when the list is missing or empty (the timeout is
ignored by the mock). -/
def Impl.blpop (impl : Impl) (key : String) : Option String × Impl :=
  match alookup impl.lists key with
  | none => (none, impl)
  | some [] => (none, impl)
  | some (v :: rest) =>
    (some v, { impl with lists := aupdate impl.lists key rest })

/-- `Impl::set` (core/RedisClient.cpp, lines 37-41). -/
def Impl.set (impl : Impl) (key value : String) : Bool × Impl :=
  (true, { impl with kv_store := aupdate impl.kv_store key value })

/-- `Impl::get` (core/RedisClient.cpp, lines 43-50). -/
def Impl.get (impl : Impl) (key : String) : Option String :=
  alookup impl.kv_store key

/-- `Impl::del` (core/RedisClient.cpp, lines 52-57): erase the key from
both maps; true when either map held it (`erase(key) > 0`). -/
def Impl.del (impl : Impl) (key : String) : Bool × Impl :=
  ((alookup impl.kv_store key).isSome || (alookup impl.lists key).isSome,
    { kv_store := aerase impl.kv_store key,
      lists := aerase impl.lists key })

/-- `Impl::llen` (core/RedisClient.cpp, lines 59-66): 0 for a missing
list, else its length. -/
def Impl.llen (impl : Impl) (key : String) : Int :=
  match alookup impl.lists key with
  | none => 0
  | some l => l.length

namespace RedisClient

/-- `telemetry_processor::RedisClient::ping` (core/RedisClient.cpp,
lines 89-94): "" when not connected, else "PONG". -/
def ping (connected : Bool) : String :=
  if connected = false then "" else "PONG"

/-- `telemetry_processor::RedisClient::rpush` (core/RedisClient.cpp,
lines 96-101): false when not connected. -/
def rpush (connected : Bool) (impl : Impl) (key value : String) :
    Bool × Impl :=
  if connected = false then (false, impl) else impl.rpush key value

/-- `telemetry_processor::RedisClient::blpop` (core/RedisClient.cpp,
lines 103-108): absent when not connected. -/
def blpop (connected : Bool) (impl : Impl) (key : String) :
    Option String × Impl :=
  if connected = false then (none, impl) else impl.blpop key

/-- `telemetry_processor::RedisClient::set` (core/RedisClient.cpp,
lines 110-115). -/
def set (connected : Bool) (impl : Impl) (key value : String) :
    Bool × Impl :=
  if connected = false then (false, impl) else impl.set key value

/-- `telemetry_processor::RedisClient::get` (core/RedisClient.cpp,
lines 117-122). -/
def get (connected : Bool) (impl : Impl) (key : String) : Option String :=
  if connected = false then none else impl.get key

/-- `telemetry_processor::RedisClient::del` (core/RedisClient.cpp,
lines 124-129): false when not connected. -/
def del (connected : Bool) (impl : Impl) (key : String) : Bool × Impl :=
  if connected = false then (false, impl) else impl.del key

/-- `telemetry_processor::RedisClient::llen` (core/RedisClient.cpp,
lines 131-136): returns -1 when not connected, else the mock length. -/
def llen (connected : Bool) (impl : Impl) (key : String) : Int :=
  if connected = false then -1 else impl.llen key

end RedisClient

end TelemetryProcessor

open TelemetryCommon TelemetryProcessor in
/-- C8 counterexample: the in-memory `telemetry_processor::RedisClient`
returns -1, not 0, from `llen` when there is no live connection — a
count operation whose failure result is not the claimed zero. -/
theorem c8_conservative_default_counterexample :
    TelemetryProcessor.RedisClient.llen false
      { kv_store := [], lists := [("queue:tasks", ["a", "b"])] }
      "queue:tasks" = -1 ∧
    (-1 : Int) ≠ 0 := by
  exact ⟨rfl, by decide⟩

open TelemetryCommon TelemetryProcessor in
/-- C8 (amended): every operation of both broker clients returns a typed
conservative default — absent, zero, false, empty — when it cannot
complete (no live connection, or any transport error `e`), and never
raises (each wrapper is a total function catching `sw::redis::Error`);
the two deliberate exceptions are `ttl`, whose failure sentinel is -2
(the key-absent code), and the in-memory client's `llen`, which returns
-1 when not connected. -/
theorem c8_conservative_default_amended (e : RedisError)
    (key value member : String) (ttlSec score start stop tmo : Int)
    (impl : Impl) :
    TelemetryCommon.RedisClient.ping none = false ∧
    TelemetryCommon.RedisClient.set none key value ttlSec = false ∧
    TelemetryCommon.RedisClient.get none key = none ∧
    TelemetryCommon.RedisClient.del none key = 0 ∧
    TelemetryCommon.RedisClient.existsKey none key = false ∧
    TelemetryCommon.RedisClient.expire none key ttlSec = false ∧
    TelemetryCommon.RedisClient.ttl none key = -2 ∧
    TelemetryCommon.RedisClient.lpush none key value = 0 ∧
    TelemetryCommon.RedisClient.rpop none key = none ∧
    TelemetryCommon.RedisClient.brpop none key tmo = none ∧
    TelemetryCommon.RedisClient.llen none key = 0 ∧
    TelemetryCommon.RedisClient.lrange none key start stop = [] ∧
    TelemetryCommon.RedisClient.sadd none key member = 0 ∧
    TelemetryCommon.RedisClient.sismember none key member = false ∧
    TelemetryCommon.RedisClient.srem none key member = 0 ∧
    TelemetryCommon.RedisClient.zadd none key member score = 0 ∧
    TelemetryCommon.RedisClient.zpopmax none key = none ∧
    TelemetryCommon.RedisClient.zcard none key = 0 ∧
    TelemetryCommon.RedisClient.incr none key = 0 ∧
    TelemetryCommon.RedisClient.decr none key = 0 ∧
    TelemetryCommon.RedisClient.info none = "" ∧
    TelemetryCommon.RedisClient.ping (some (errRedis e)) = false ∧
    TelemetryCommon.RedisClient.set (some (errRedis e)) key value ttlSec
      = false ∧
    TelemetryCommon.RedisClient.get (some (errRedis e)) key = none ∧
    TelemetryCommon.RedisClient.del (some (errRedis e)) key = 0 ∧
    TelemetryCommon.RedisClient.existsKey (some (errRedis e)) key
      = false ∧
    TelemetryCommon.RedisClient.expire (some (errRedis e)) key ttlSec
      = false ∧
    TelemetryCommon.RedisClient.ttl (some (errRedis e)) key = -2 ∧
    TelemetryCommon.RedisClient.lpush (some (errRedis e)) key value = 0 ∧
    TelemetryCommon.RedisClient.rpop (some (errRedis e)) key = none ∧
    TelemetryCommon.RedisClient.brpop (some (errRedis e)) key tmo
      = none ∧
    TelemetryCommon.RedisClient.llen (some (errRedis e)) key = 0 ∧
    TelemetryCommon.RedisClient.lrange (some (errRedis e)) key start stop
      = [] ∧
    TelemetryCommon.RedisClient.sadd (some (errRedis e)) key member = 0 ∧
    TelemetryCommon.RedisClient.sismember (some (errRedis e)) key member
      = false ∧
    TelemetryCommon.RedisClient.srem (some (errRedis e)) key member = 0 ∧
    TelemetryCommon.RedisClient.zadd (some (errRedis e)) key member score
      = 0 ∧
    TelemetryCommon.RedisClient.zpopmax (some (errRedis e)) key = none ∧
    TelemetryCommon.RedisClient.zcard (some (errRedis e)) key = 0 ∧
    TelemetryCommon.RedisClient.incr (some (errRedis e)) key = 0 ∧
    TelemetryCommon.RedisClient.decr (some (errRedis e)) key = 0 ∧
    TelemetryCommon.RedisClient.info (some (errRedis e)) = "" ∧
    TelemetryProcessor.RedisClient.ping false = "" ∧
    TelemetryProcessor.RedisClient.rpush false impl key value
      = (false, impl) ∧
    TelemetryProcessor.RedisClient.blpop false impl key = (none, impl) ∧
    TelemetryProcessor.RedisClient.set false impl key value
      = (false, impl) ∧
    TelemetryProcessor.RedisClient.get false impl key = none ∧
    TelemetryProcessor.RedisClient.del false impl key = (false, impl) ∧
    TelemetryProcessor.RedisClient.llen false impl key = -1 := by
  simp [TelemetryCommon.RedisClient.ping, TelemetryCommon.RedisClient.set,
    TelemetryCommon.RedisClient.get, TelemetryCommon.RedisClient.del,
    TelemetryCommon.RedisClient.existsKey,
    TelemetryCommon.RedisClient.expire, TelemetryCommon.RedisClient.ttl,
    TelemetryCommon.RedisClient.lpush, TelemetryCommon.RedisClient.rpop,
    TelemetryCommon.RedisClient.brpop, TelemetryCommon.RedisClient.llen,
    TelemetryCommon.RedisClient.lrange, TelemetryCommon.RedisClient.sadd,
    TelemetryCommon.RedisClient.sismember,
    TelemetryCommon.RedisClient.srem, TelemetryCommon.RedisClient.zadd,
    TelemetryCommon.RedisClient.zpopmax,
    TelemetryCommon.RedisClient.zcard, TelemetryCommon.RedisClient.incr,
    TelemetryCommon.RedisClient.decr, TelemetryCommon.RedisClient.info,
    errRedis, TelemetryProcessor.RedisClient.ping,
    TelemetryProcessor.RedisClient.rpush,
    TelemetryProcessor.RedisClient.blpop,
    TelemetryProcessor.RedisClient.set,
    TelemetryProcessor.RedisClient.get,
    TelemetryProcessor.RedisClient.del,
    TelemetryProcessor.RedisClient.llen]

open TelemetryCommon in
/-- C9 counterexample: the concrete client's `zpopmax` returns only the
member — after `zadd` with score 5 and after `zadd` with score 7 the
client's result is the identical `some "a"`, while the server-level pops
carry the distinct pairs ("a", 5) and ("a", 7); the claimed (member,
score) pair is not returned. -/
theorem c9_zpopmax_counterexample :
    (RedisClient.zpopmaxLive
      (RedisClient.zaddLive emptyServer "priq:q" "a" 5).2 "priq:q").1
      = some "a" ∧
    (RedisClient.zpopmaxLive
      (RedisClient.zaddLive emptyServer "priq:q" "a" 7).2 "priq:q").1
      = some "a" ∧
    (serverZpopmax
      (RedisClient.zaddLive emptyServer "priq:q" "a" 5).2 "priq:q").1
      = some ("a", 5) ∧
    (serverZpopmax
      (RedisClient.zaddLive emptyServer "priq:q" "a" 7).2 "priq:q").1
      = some ("a", 7) ∧
    (("a", (5 : Int)) ≠ ("a", (7 : Int))) := by
  refine ⟨rfl, rfl, rfl, rfl, by decide⟩

open TelemetryCommon in
/-- C9 (amended): for every key k, score p and member m, `zpopmax(k)`
immediately after `zadd(k, p, m)` on an empty sorted set pops the pair
(m, p) from the server but returns only the member m; the score is
discarded by the client (the `IRedisClient` interface declares the
(member, score) pair form). -/
theorem c9_zpopmax_amended (key member : String) (score : Int) :
    (RedisClient.zpopmaxLive
      (RedisClient.zaddLive emptyServer key member score).2 key).1
      = some member ∧
    (serverZpopmax
      (RedisClient.zaddLive emptyServer key member score).2 key).1
      = some (member, score) := by
  simp [RedisClient.zpopmaxLive, RedisClient.zaddLive, serverZadd,
    serverZpopmax, emptyServer, alookup, aupdate, zsetUpsert, zselectMax]

end TelemetryPlatform
